import Mathlib

/-!
Verification of the contribution lifecycle of erold.guide.

The embedding models the two AWS Lambda handlers that own the lifecycle:
`src/infra/lambda/contributions/index.mjs` (submit / get / revise /
withdraw / admin moderation) and `src/infra/lambda/ai-reviewer/index.mjs`
(automated review application).  DynamoDB tables and S3 buckets become
association lists keyed by strings; each handler becomes a function from a
`World` to a `World × Resp`.  Nondeterministic inputs of the real system
(clock readings, generated ids, S3 write failures, the Claude verdict) are
explicit parameters.  Rendering of markdown/HTML bodies is out of scope;
the published artifacts are modelled by the structured inputs from which
`generateMarkdownFile` / `generateHtmlPage` deterministically derive them.

Spec-to-code vocabulary: the specification's states `automated_pass`,
`automated_needs_changes`, `automated_reject`, `moderator_needs_changes`,
`published` are the code's status strings `ai_approved`, `ai_needs_changes`,
`ai_rejected`, `admin_needs_changes`, `approved`; `publishedLocation` is the
code's `publishedPath`; `moderate` is the admin approve/reject/request-changes
trio; `revise` is `updateContribution`; `withdraw` is `deleteContribution`;
`applyReviewResult` is the reviewer lambda's `reviewContribution`.
-/

namespace Erold

/-- The guideline payload fields checked by `validateGuideline`. -/
structure Guideline where
  title : String
  slug : String
  version : String
  description : String
  tags : List String
  difficulty : String
  content : String
deriving Repr, DecidableEq

/-- One entry of the field-level error list built by `validateGuideline`. -/
structure FieldError where
  field : String
  message : String
deriving Repr, DecidableEq

/-- One character of the slug regex `/^[a-z0-9-]+$/`. -/
def isSlugChar (c : Char) : Bool :=
  (Char.ofNat 97 ≤ c && c ≤ Char.ofNat 122) || c.isDigit || c == Char.ofNat 45

/-- The slug regex `/^[a-z0-9-]+$/`: nonempty, all characters in `[a-z0-9-]`. -/
def slugMatches (s : String) : Bool :=
  s != "" && s.data.all isSlugChar

/-- Split a character list at every dot (Char 46), keeping empty groups, as
`String.split` on a dot would. -/
def splitDots : List Char → List (List Char)
  | [] => [[]]
  | c :: cs =>
      if c == Char.ofNat 46 then [] :: splitDots cs
      else
        match splitDots cs with
        | g :: gs => (c :: g) :: gs
        | [] => [[c]]

/-- The version regex `/^\d+\.\d+\.\d+$/`: exactly three nonempty digit runs
joined by dots. -/
def semverMatches (s : String) : Bool :=
  match splitDots s.data with
  | [a, b, c] =>
      !a.isEmpty && a.all Char.isDigit &&
      !b.isEmpty && b.all Char.isDigit &&
      !c.isEmpty && c.all Char.isDigit
  | _ => false

/-- `validateGuideline` (contributions/index.mjs, lines 288-314): pushes one
field error per failing check and returns the whole list. -/
def validateGuideline (data : Guideline) : List FieldError :=
  (if data.title == "" || data.title.length < 5 || data.title.length > 100 then
    [⟨"title", "Must be 5-100 characters"⟩] else []) ++
  (if data.slug == "" || !(slugMatches data.slug) then
    [⟨"slug", "Must be lowercase with hyphens only"⟩] else []) ++
  (if data.version == "" || !(semverMatches data.version) then
    [⟨"version", "Must be semver format (1.0.0)"⟩] else []) ++
  (if data.description == "" || data.description.length < 20 || data.description.length > 300 then
    [⟨"description", "Must be 20-300 characters"⟩] else []) ++
  (if data.tags.length < 1 || data.tags.length > 10 then
    [⟨"tags", "Must have 1-10 tags"⟩] else []) ++
  (if !(["beginner", "intermediate", "advanced"].contains data.difficulty) then
    [⟨"difficulty", "Must be beginner, intermediate, or advanced"⟩] else []) ++
  (if data.content == "" || data.content.length < 100 then
    [⟨"content", "Content must be at least 100 characters"⟩] else [])

/-- An authenticated caller (JWT payload: `sub`, `username`, `avatar`). -/
structure User where
  sub : String
  username : String
  avatar : String
deriving Repr, DecidableEq

/-- `isAdmin` (lines 27-29): membership of the username in the `ADMIN_USERS`
environment allowlist, passed here explicitly. -/
def isAdmin (adminUsers : List String) (user : User) : Bool :=
  adminUsers.contains user.username

/-- The automated review stored under the `review` attribute. -/
structure ReviewData where
  decision : String
  score : Nat
deriving Repr, DecidableEq

/-- The moderator feedback stored under the `adminReview` attribute. -/
structure AdminReviewData where
  feedback : String
  requestedBy : String
  requestedAt : String
deriving Repr, DecidableEq

/-- The mutable DynamoDB record `CONTRIB#id / META` with the attributes the
lifecycle handlers read or write. -/
structure Contribution where
  id : String
  status : String
  framework : String
  category : String
  slug : String
  title : String
  contributorGithubId : String
  contributorUsername : String
  contributorAvatar : String
  createdAt : String
  updatedAt : String
  review : Option ReviewData
  adminReview : Option AdminReviewData
  approvedBy : Option String
  approvedAt : Option String
  publishedPath : Option String
  rejectedBy : Option String
  rejectedAt : Option String
  rejectionReason : Option String
deriving Repr, DecidableEq

/-- The DynamoDB record `GUIDELINE#framework#category#slug / META` created on
approval; it is what the submit-time duplicate query finds. -/
structure GuidelineEntry where
  contributionId : String
  framework : String
  category : String
  slug : String
  title : String
  publishedAt : String
  publishedPath : String
deriving Repr, DecidableEq

/-- The JSON object stored at `id/guideline.json` in the pending bucket. -/
structure SubmittedContent where
  framework : String
  category : String
  guideline : Guideline
deriving Repr, DecidableEq

/-- Inputs from which the published markdown and HTML artifacts are
deterministically rendered (rendering itself is out of scope). -/
structure PublishedDoc where
  framework : String
  category : String
  guideline : Guideline
  contributorUsername : String
deriving Repr, DecidableEq

/-- The durable state touched by the lifecycle: the DynamoDB table (split
into its two record families) and the three S3 buckets. -/
structure World where
  contribs : List (String × Contribution)
  guidelines : List (String × GuidelineEntry)
  pendingBucket : List (String × SubmittedContent)
  contentBucket : List (String × PublishedDoc)
  websiteBucket : List (String × PublishedDoc)
deriving Repr, DecidableEq

/-- Overwriting put, the semantics of both `PutCommand` and S3 `PutObject`. -/
def putKV {α : Type} (l : List (String × α)) (k : String) (v : α) : List (String × α) :=
  (k, v) :: l.filter (fun p => p.1 != k)

/-- An unconditional `UpdateCommand` with `SET` clauses: rewrites the record
currently stored under the key.  (No handler runs it on an absent key along
any modelled flow, so the upsert-from-nothing case is omitted.) -/
def updateRecord (l : List (String × Contribution)) (k : String)
    (f : Contribution → Contribution) : List (String × Contribution) :=
  match List.lookup k l with
  | some c => putKV l k (f c)
  | none => l

/-- An HTTP response: `ok` for the 2xx JSON bodies, `err` for the
`error(statusCode, code, message, details)` helper. -/
inductive Resp where
  | ok (statusCode : Nat)
  | err (statusCode : Nat) (code : String) (message : String) (details : List FieldError)
deriving Repr, DecidableEq

/-- The `error` helper without a details list. -/
def errResp (statusCode : Nat) (code message : String) : Resp :=
  .err statusCode code message []

/-- The key of the published-guideline index: `pk = GUIDELINE#fw#cat#slug`,
equivalently the GSI pair `(FRAMEWORK#fw, cat#slug)` — both are bijective
images of the classification triple. -/
def guidelineKey (framework category slug : String) : String :=
  framework ++ "#" ++ category ++ "#" ++ slug

/-- `createContribution` (lines 317-401): field validation, submit-time
duplicate query against the published index, S3 payload put, metadata put
with status `pending`.  The AI-review trigger is fire-and-forget and its
failure is swallowed, so it has no effect on the modelled state.  `id` is
the generated `contrib_<hex>` identifier and `now` the clock reading. -/
def createContribution (user : User) (framework category : String)
    (guideline : Guideline) (id now : String) (w : World) : World × Resp :=
  if framework == "" || category == "" then
    (w, errResp 400 "VALIDATION_ERROR" "Framework and category are required")
  else
    let validationErrors := validateGuideline guideline
    if validationErrors.length > 0 then
      (w, .err 400 "VALIDATION_ERROR" "Invalid guideline format" validationErrors)
    else
      match List.lookup (guidelineKey framework category guideline.slug) w.guidelines with
      | some _ => (w, errResp 409 "DUPLICATE_ERROR" "A guideline with this slug already exists")
      | none =>
          let item : Contribution :=
            { id := id, status := "pending", framework := framework, category := category,
              slug := guideline.slug, title := guideline.title,
              contributorGithubId := user.sub, contributorUsername := user.username,
              contributorAvatar := user.avatar, createdAt := now, updatedAt := now,
              review := none, adminReview := none, approvedBy := none, approvedAt := none,
              publishedPath := none, rejectedBy := none, rejectedAt := none,
              rejectionReason := none }
          ({ w with
              pendingBucket := putKV w.pendingBucket id ⟨framework, category, guideline⟩,
              contribs := putKV w.contribs id item },
           .ok 201)

/-- `getContribution` (lines 403-426): not-found, then ownership (no admin
bypass), then the S3 content fetch.  A missing S3 object throws and is
turned into the handler's 500 `INTERNAL_ERROR` catch-all. -/
def getContribution (user : User) (id : String) (w : World) : World × Resp :=
  match List.lookup id w.contribs with
  | none => (w, errResp 404 "NOT_FOUND" "Contribution not found")
  | some item =>
      if item.contributorGithubId != user.sub then
        (w, errResp 403 "FORBIDDEN" "You can only view your own contributions")
      else
        match List.lookup id w.pendingBucket with
        | none => (w, errResp 500 "INTERNAL_ERROR" "An internal error occurred")
        | some _ => (w, .ok 200)

/-- The status allowlist of `updateContribution` (line 466). -/
def updateEditableStatuses : List String := ["pending", "ai_needs_changes", "admin_needs_changes"]

/-- `updateContribution` after its initial `GetCommand` (lines 458-513):
the guards run on the snapshot `itemRead`, then the S3 put and the
unconditional `UpdateCommand` (no `ConditionExpression`) run against the
current world. -/
def updateContributionAfterRead (user : User) (id : String)
    (framework category : String) (guideline : Guideline) (now : String)
    (itemRead : Option Contribution) (w : World) : World × Resp :=
  match itemRead with
  | none => (w, errResp 404 "NOT_FOUND" "Contribution not found")
  | some item =>
      if item.contributorGithubId != user.sub then
        (w, errResp 403 "FORBIDDEN" "You can only update your own contributions")
      else if !(updateEditableStatuses.contains item.status) then
        (w, errResp 400 "INVALID_STATE" "Can only update pending or needs-changes contributions")
      else
        let validationErrors := validateGuideline guideline
        if validationErrors.length > 0 then
          (w, .err 400 "VALIDATION_ERROR" "Invalid guideline format" validationErrors)
        else
          let w1 := { w with
            pendingBucket := putKV w.pendingBucket id ⟨framework, category, guideline⟩ }
          ({ w1 with contribs := updateRecord w1.contribs id (fun c =>
              { c with status := "pending", title := guideline.title, slug := guideline.slug,
                       updatedAt := now, review := none, adminReview := none }) },
           .ok 200)

/-- `updateContribution` (lines 452-514) run without interleaving: read,
then the rest against the same world. -/
def updateContribution (user : User) (id : String) (framework category : String)
    (guideline : Guideline) (now : String) (w : World) : World × Resp :=
  updateContributionAfterRead user id framework category guideline now
    (List.lookup id w.contribs) w

/-- The status allowlist of `deleteContribution` (line 530). -/
def withdrawableStatuses : List String := ["pending", "ai_needs_changes", "ai_approved"]

/-- `deleteContribution` after its initial `GetCommand` (lines 522-546). -/
def deleteContributionAfterRead (user : User) (id now : String)
    (itemRead : Option Contribution) (w : World) : World × Resp :=
  match itemRead with
  | none => (w, errResp 404 "NOT_FOUND" "Contribution not found")
  | some item =>
      if item.contributorGithubId != user.sub then
        (w, errResp 403 "FORBIDDEN" "You can only withdraw your own contributions")
      else if !(withdrawableStatuses.contains item.status) then
        (w, errResp 400 "INVALID_STATE" "Cannot withdraw approved or rejected contributions")
      else
        ({ w with contribs := updateRecord w.contribs id (fun c =>
            { c with status := "withdrawn", updatedAt := now }) },
         .ok 200)

/-- `deleteContribution` (withdraw, lines 516-547) run without interleaving. -/
def deleteContribution (user : User) (id now : String) (w : World) : World × Resp :=
  deleteContributionAfterRead user id now (List.lookup id w.contribs) w

/-- The status allowlist of `adminApproveContribution` (line 626). -/
def approvableStatuses : List String := ["ai_approved", "pending", "ai_needs_changes"]

/-- The markdown path written by approval (line 640). -/
def guidelinePath (framework category slug : String) : String :=
  "guidelines/" ++ framework ++ "/" ++ category ++ "/" ++ slug ++ ".md"

/-- The static HTML path written by approval (line 657). -/
def htmlPath (framework category slug : String) : String :=
  "guidelines/" ++ framework ++ "/" ++ category ++ "/" ++ slug ++ "/index.html"

/-- Failure injection for the two publish S3 `PutObject` calls inside
`adminApproveContribution`; a thrown AWS SDK error propagates to the
route handler's catch-all. -/
structure S3Faults where
  markdownPutFails : Bool
  htmlPutFails : Bool
deriving Repr, DecidableEq

/-- No injected S3 failure. -/
def noFaults : S3Faults := ⟨false, false⟩

/-- `adminApproveContribution` after its initial `GetCommand`
(lines 622-730): admin gate (line 613, before the read), state guard on the
snapshot, S3 content fetch, markdown publish, HTML publish (each may throw
→ 500 `INTERNAL_ERROR` from the handler catch), CloudFront invalidation
(failure swallowed, line 681), then the unconditional status
`UpdateCommand` and the guideline-index `PutCommand`. -/
def adminApproveContributionAfterRead (adminUsers : List String) (user : User)
    (id now : String) (faults : S3Faults)
    (itemRead : Option Contribution) (w : World) : World × Resp :=
  if !(isAdmin adminUsers user) then
    (w, errResp 403 "FORBIDDEN" "Admin access required")
  else
    match itemRead with
    | none => (w, errResp 404 "NOT_FOUND" "Contribution not found")
    | some item =>
        if !(approvableStatuses.contains item.status) then
          (w, errResp 400 "INVALID_STATE" "Can only approve pending or AI-reviewed contributions")
        else
          match List.lookup id w.pendingBucket with
          | none => (w, errResp 500 "INTERNAL_ERROR" "An internal error occurred")
          | some content =>
              let gPath := guidelinePath content.framework content.category content.guideline.slug
              let doc : PublishedDoc :=
                ⟨content.framework, content.category, content.guideline, item.contributorUsername⟩
              if faults.markdownPutFails then
                (w, errResp 500 "INTERNAL_ERROR" "An internal error occurred")
              else
                let w1 := { w with contentBucket := putKV w.contentBucket gPath doc }
                if faults.htmlPutFails then
                  (w1, errResp 500 "INTERNAL_ERROR" "An internal error occurred")
                else
                  let hPath := htmlPath content.framework content.category content.guideline.slug
                  let w2 := { w1 with websiteBucket := putKV w1.websiteBucket hPath doc }
                  let w3 := { w2 with contribs := updateRecord w2.contribs id (fun c =>
                    { c with status := "approved", updatedAt := now,
                             approvedBy := some user.username, approvedAt := some now,
                             publishedPath := some gPath }) }
                  let entry : GuidelineEntry :=
                    { contributionId := id, framework := content.framework,
                      category := content.category, slug := content.guideline.slug,
                      title := content.guideline.title, publishedAt := now,
                      publishedPath := gPath }
                  let gKey := guidelineKey content.framework content.category content.guideline.slug
                  ({ w3 with guidelines := putKV w3.guidelines gKey entry }, .ok 200)

/-- `adminApproveContribution` (lines 612-730) run without interleaving. -/
def adminApproveContribution (adminUsers : List String) (user : User)
    (id now : String) (faults : S3Faults) (w : World) : World × Resp :=
  adminApproveContributionAfterRead adminUsers user id now faults
    (List.lookup id w.contribs) w

/-- The finalized statuses blocked by reject and request-changes
(lines 746 and 783). -/
def finalizedStatuses : List String := ["approved", "rejected", "withdrawn"]

/-- `adminRejectContribution` after its initial `GetCommand`
(lines 737-766): admin gate, terminal-state guard on the snapshot, then the
unconditional `UpdateCommand`.  `reason` is the optional body field. -/
def adminRejectContributionAfterRead (adminUsers : List String) (user : User)
    (id : String) (reason : Option String) (now : String)
    (itemRead : Option Contribution) (w : World) : World × Resp :=
  if !(isAdmin adminUsers user) then
    (w, errResp 403 "FORBIDDEN" "Admin access required")
  else
    match itemRead with
    | none => (w, errResp 404 "NOT_FOUND" "Contribution not found")
    | some item =>
        if finalizedStatuses.contains item.status then
          (w, errResp 400 "INVALID_STATE" "Cannot reject already finalized contributions")
        else
          ({ w with contribs := updateRecord w.contribs id (fun c =>
              { c with status := "rejected", updatedAt := now,
                       rejectedBy := some user.username, rejectedAt := some now,
                       rejectionReason := some (reason.getD "Does not meet quality standards") }) },
           .ok 200)

/-- `adminRejectContribution` (lines 732-767) run without interleaving. -/
def adminRejectContribution (adminUsers : List String) (user : User)
    (id : String) (reason : Option String) (now : String) (w : World) : World × Resp :=
  adminRejectContributionAfterRead adminUsers user id reason now
    (List.lookup id w.contribs) w

/-- `adminRequestChanges` after its initial `GetCommand` (lines 774-812):
admin gate, terminal-state guard, required nonempty feedback (`!feedback`
also rejects the empty string), then the unconditional `UpdateCommand`. -/
def adminRequestChangesAfterRead (adminUsers : List String) (user : User)
    (id : String) (feedback : Option String) (now : String)
    (itemRead : Option Contribution) (w : World) : World × Resp :=
  if !(isAdmin adminUsers user) then
    (w, errResp 403 "FORBIDDEN" "Admin access required")
  else
    match itemRead with
    | none => (w, errResp 404 "NOT_FOUND" "Contribution not found")
    | some item =>
        if finalizedStatuses.contains item.status then
          (w, errResp 400 "INVALID_STATE" "Cannot request changes for finalized contributions")
        else
          match feedback with
          | none => (w, errResp 400 "VALIDATION_ERROR" "Feedback is required when requesting changes")
          | some fb =>
              if fb == "" then
                (w, errResp 400 "VALIDATION_ERROR" "Feedback is required when requesting changes")
              else
                ({ w with contribs := updateRecord w.contribs id (fun c =>
                    { c with status := "admin_needs_changes", updatedAt := now,
                             adminReview := some ⟨fb, user.username, now⟩ }) },
                 .ok 200)

/-- `adminRequestChanges` (lines 769-812) run without interleaving. -/
def adminRequestChanges (adminUsers : List String) (user : User)
    (id : String) (feedback : Option String) (now : String) (w : World) : World × Resp :=
  adminRequestChangesAfterRead adminUsers user id feedback now
    (List.lookup id w.contribs) w

/-- `adminGetContribution` (lines 588-610): admin gate, read, S3 fetch. -/
def adminGetContribution (adminUsers : List String) (user : User)
    (id : String) (w : World) : World × Resp :=
  if !(isAdmin adminUsers user) then
    (w, errResp 403 "FORBIDDEN" "Admin access required")
  else
    match List.lookup id w.contribs with
    | none => (w, errResp 404 "NOT_FOUND" "Contribution not found")
    | some _ =>
        match List.lookup id w.pendingBucket with
        | none => (w, errResp 500 "INTERNAL_ERROR" "An internal error occurred")
        | some _ => (w, .ok 200)

/-- The outcome of the Claude API call inside the reviewer lambda:
either the call/parse throws, or a parsed verdict. -/
inductive ReviewOutcome where
  | apiFailure
  | parsed (decision : String) (score : Nat)
deriving Repr, DecidableEq

/-- The `statusMap` with its `|| 'ai_needs_changes'` fallback
(ai-reviewer/index.mjs, lines 239-245). -/
def statusMapDecision (decision : String) : String :=
  if decision == "approve" then "ai_approved"
  else if decision == "needs_changes" then "ai_needs_changes"
  else if decision == "reject" then "ai_rejected"
  else "ai_needs_changes"

/-- The reviewer lambda's return value: skipped / completed / thrown. -/
inductive ReviewResult where
  | skipped (reason : String)
  | completed (contributionId status : String)
  | failed (message : String)
deriving Repr, DecidableEq

/-- `reviewContribution` (ai-reviewer/index.mjs, lines 159-290): read the
record, skip unless status is exactly `pending`, fetch the payload, call
the API (`outcome` parameter), map the decision and commit review + status
with an unconditional `UpdateCommand`. -/
def reviewContribution (id : String) (outcome : ReviewOutcome) (now : String)
    (w : World) : World × ReviewResult :=
  match List.lookup id w.contribs with
  | none => (w, .failed ("Contribution not found: " ++ id))
  | some meta =>
      if meta.status != "pending" then
        (w, .skipped ("Status is " ++ meta.status))
      else
        match List.lookup id w.pendingBucket with
        | none => (w, .failed "S3 object not found")
        | some _ =>
            match outcome with
            | .apiFailure => (w, .failed "Failed to parse review response")
            | .parsed decision score =>
                let newStatus := statusMapDecision decision
                ({ w with contribs := updateRecord w.contribs id (fun c =>
                    { c with status := newStatus, review := some ⟨decision, score⟩,
                             updatedAt := now }) },
                 .completed id newStatus)

/-! ### Concrete fixtures used by counterexamples and witnesses -/

/-- A payload passing every check of `validateGuideline`. -/
def gOk : Guideline :=
  { title := "Protect Next.js forms against CSRF"
    slug := "csrf"
    version := "1.0.0"
    description := "How to defend server actions and API routes against cross-site request forgery."
    tags := ["security", "csrf"]
    difficulty := "intermediate"
    content := "Always pair session cookies with an anti-CSRF token and verify the Origin header before mutating state on the server. Rotate tokens on login." }

/-- The same payload with a three-character title. -/
def gShortTitle : Guideline := { gOk with title := "abc" }

/-- The contribution owner. -/
def uOwner : User := ⟨"u1", "alice", "a.png"⟩

/-- Another non-admin user. -/
def uOther : User := ⟨"u2", "bob", "b.png"⟩

/-- A moderator (member of `adminList`). -/
def uAdmin : User := ⟨"u9", "carol", "c.png"⟩

/-- A second moderator. -/
def uAdmin2 : User := ⟨"u8", "dave", "d.png"⟩

/-- The `ADMIN_USERS` allowlist of the fixtures. -/
def adminList : List String := ["carol", "dave"]

/-- A metadata record for contribution `cid` in the given status, owned by
`uOwner`, classified (`nextjs`, `security`, `csrf`). -/
def mkContrib (cid status : String) : Contribution :=
  { id := cid, status := status, framework := "nextjs", category := "security",
    slug := "csrf", title := gOk.title,
    contributorGithubId := uOwner.sub, contributorUsername := uOwner.username,
    contributorAvatar := uOwner.avatar, createdAt := "t0", updatedAt := "t0",
    review := none, adminReview := none, approvedBy := none, approvedAt := none,
    publishedPath := none, rejectedBy := none, rejectedAt := none, rejectionReason := none }

/-- A world holding the single contribution `c1` in the given status, with
its payload in the pending bucket and nothing published. -/
def wWith (status : String) : World :=
  { contribs := [("c1", mkContrib "c1" status)]
    guidelines := []
    pendingBucket := [("c1", ⟨"nextjs", "security", gOk⟩)]
    contentBucket := []
    websiteBucket := [] }

/-- A world holding two pending contributions `c1`, `c2` with the same
classification triple (`nextjs`, `security`, `csrf`). -/
def wTwoSameTriple : World :=
  { contribs := [("c1", mkContrib "c1" "pending"), ("c2", mkContrib "c2" "pending")]
    guidelines := []
    pendingBucket := [("c1", ⟨"nextjs", "security", gOk⟩), ("c2", ⟨"nextjs", "security", gOk⟩)]
    contentBucket := []
    websiteBucket := [] }

/-! ### Store lemmas -/

theorem lookup_putKV_self {α : Type} (l : List (String × α)) (k : String) (v : α) :
    List.lookup k (putKV l k v) = some v := by
  simp [putKV, List.lookup]

theorem lookup_filter_ne {α : Type} (l : List (String × α)) (k k2 : String) (h : k2 ≠ k) :
    List.lookup k2 (l.filter (fun p => p.1 != k)) = List.lookup k2 l := by
  induction l with
  | nil => rfl
  | cons a l ih =>
      rcases a with ⟨ka, va⟩
      by_cases hk : ka = k
      · subst hk
        have h1 : (k2 == ka) = false := beq_eq_false_iff_ne.mpr h
        simp [List.filter_cons, List.lookup, h1, ih]
      · have hkeep : (ka != k) = true := bne_iff_ne.mpr hk
        by_cases h2 : k2 = ka
        · subst h2
          simp [List.filter_cons, hkeep, List.lookup]
        · have h3 : (k2 == ka) = false := beq_eq_false_iff_ne.mpr h2
          simp [List.filter_cons, hkeep, List.lookup, h3, ih]

theorem lookup_putKV_ne {α : Type} (l : List (String × α)) (k k2 : String) (v : α)
    (h : k2 ≠ k) : List.lookup k2 (putKV l k v) = List.lookup k2 l := by
  have hne : (k2 == k) = false := beq_eq_false_iff_ne.mpr h
  simp [putKV, List.lookup, hne, lookup_filter_ne l k k2 h]

theorem lookup_updateRecord_self (l : List (String × Contribution)) (k : String)
    (f : Contribution → Contribution) :
    List.lookup k (updateRecord l k f) = (List.lookup k l).map f := by
  cases h : List.lookup k l with
  | none => simp [updateRecord, h]
  | some c => simp [updateRecord, h, lookup_putKV_self]

theorem lookup_updateRecord_ne (l : List (String × Contribution)) (k k2 : String)
    (f : Contribution → Contribution) (h : k2 ≠ k) :
    List.lookup k2 (updateRecord l k f) = List.lookup k2 l := by
  cases hl : List.lookup k l with
  | none => simp [updateRecord, hl]
  | some c => simp [updateRecord, hl, lookup_putKV_ne _ _ _ _ h]

/-! ### Claim theorems -/

set_option maxRecDepth 8000

/-- C7: `applyReviewResult` (the reviewer lambda's `reviewContribution`)
invoked on a contribution whose status is no longer `pending` is a no-op
returning a skipped result: the world — hence status and every
review/decision field — is unchanged, so it never overwrites a moderator
decision. -/
theorem C7_stale_review_skipped (id : String) (outcome : ReviewOutcome) (now : String)
    (w : World) (meta : Contribution)
    (hlook : List.lookup id w.contribs = some meta)
    (hne : meta.status ≠ "pending") :
    reviewContribution id outcome now w = (w, .skipped ("Status is " ++ meta.status)) := by
  have hb : (meta.status != "pending") = true := bne_iff_ne.mpr hne
  unfold reviewContribution
  rw [hlook]
  simp [hb]

/-- Witness for C7 at a concrete stale call: the contribution is in
`ai_approved` (a moderator-relevant post-review state) and a late `reject`
verdict arrives; the call is skipped and the world is untouched. -/
theorem C7_stale_review_skipped_witness :
    List.lookup "c1" (wWith "ai_approved").contribs = some (mkContrib "c1" "ai_approved") ∧
    (mkContrib "c1" "ai_approved").status ≠ "pending" ∧
    reviewContribution "c1" (.parsed "reject" 30) "t1" (wWith "ai_approved")
      = (wWith "ai_approved", .skipped "Status is ai_approved") :=
  ⟨by decide, by decide,
   C7_stale_review_skipped "c1" (.parsed "reject" 30) "t1" (wWith "ai_approved")
     (mkContrib "c1" "ai_approved") (by decide) (by decide)⟩

/-- C10: the non-admin `getContribution` rejects every caller other than the
owner with 403 `FORBIDDEN` and no payload — including callers on the admin
allowlist — while the separate `adminGetContribution` route serves admins
regardless of ownership. -/
theorem C10_get_ownership_enforced (u : User) (id : String) (w : World)
    (c : Contribution)
    (hlook : List.lookup id w.contribs = some c)
    (hown : c.contributorGithubId ≠ u.sub) :
    getContribution u id w
        = (w, errResp 403 "FORBIDDEN" "You can only view your own contributions") ∧
    (∀ adminUsers : List String, isAdmin adminUsers u = true →
      getContribution u id w
        = (w, errResp 403 "FORBIDDEN" "You can only view your own contributions")) ∧
    (∀ (adminUsers : List String) (content : SubmittedContent),
      isAdmin adminUsers u = true →
      List.lookup id w.pendingBucket = some content →
      adminGetContribution adminUsers u id w = (w, .ok 200)) := by
  have hb : (c.contributorGithubId != u.sub) = true := bne_iff_ne.mpr hown
  have hget : getContribution u id w
      = (w, errResp 403 "FORBIDDEN" "You can only view your own contributions") := by
    unfold getContribution
    rw [hlook]
    simp [hb]
  refine ⟨hget, fun _ _ => hget, fun adminUsers content hadm hcont => ?_⟩
  unfold adminGetContribution
  rw [hadm]
  simp only [Bool.not_true, Bool.false_eq_true, if_false]
  rw [hlook, hcont]

/-- Witness for C10: `carol` is on the admin allowlist but does not own
`c1`; the member route answers 403 while the admin route answers 200. -/
theorem C10_get_ownership_enforced_witness :
    (mkContrib "c1" "pending").contributorGithubId ≠ uAdmin.sub ∧
    isAdmin adminList uAdmin = true ∧
    getContribution uAdmin "c1" (wWith "pending")
      = (wWith "pending", errResp 403 "FORBIDDEN" "You can only view your own contributions") ∧
    adminGetContribution adminList uAdmin "c1" (wWith "pending") = (wWith "pending", .ok 200) := by
  have h := C10_get_ownership_enforced uAdmin "c1" (wWith "pending")
    (mkContrib "c1" "pending") (by decide) (by decide)
  exact ⟨by decide, by decide, h.1, h.2.2 adminList ⟨"nextjs", "security", gOk⟩ (by decide) (by decide)⟩

/-- The record update applied by a successful approval. -/
def approveSet (user : User) (now gPath : String) (c : Contribution) : Contribution :=
  { c with status := "approved", updatedAt := now,
           approvedBy := some user.username, approvedAt := some now,
           publishedPath := some gPath }

/-- Helper: the fault-free approval path, given an admin caller, an
approvable snapshot and present payload, commits the two bucket writes, the
record update and the index entry, and returns 200. -/
theorem approve_success_eq (adminUsers : List String) (user : User) (id now : String)
    (w : World) (c : Contribution) (content : SubmittedContent)
    (hadm : isAdmin adminUsers user = true)
    (hst : approvableStatuses.contains c.status = true)
    (hcont : List.lookup id w.pendingBucket = some content) :
    adminApproveContributionAfterRead adminUsers user id now noFaults (some c) w =
      ({ w with
          contentBucket := putKV w.contentBucket
            (guidelinePath content.framework content.category content.guideline.slug)
            ⟨content.framework, content.category, content.guideline, c.contributorUsername⟩,
          websiteBucket := putKV w.websiteBucket
            (htmlPath content.framework content.category content.guideline.slug)
            ⟨content.framework, content.category, content.guideline, c.contributorUsername⟩,
          contribs := updateRecord w.contribs id
            (approveSet user now
              (guidelinePath content.framework content.category content.guideline.slug)),
          guidelines := putKV w.guidelines
            (guidelineKey content.framework content.category content.guideline.slug)
            { contributionId := id, framework := content.framework,
              category := content.category, slug := content.guideline.slug,
              title := content.guideline.title, publishedAt := now,
              publishedPath :=
                guidelinePath content.framework content.category content.guideline.slug } },
       .ok 200) := by
  have hmem : c.status ∈ approvableStatuses := by simpa using hst
  unfold adminApproveContributionAfterRead
  simp [hadm, hmem, hcont, noFaults]
  congr 1

/-- C1 counterexample: a contribution in the automated-reject state
(`ai_rejected`, the spec's `automated_reject`) cannot be approved — the
moderator approve fails with `INVALID_STATE` instead of publishing, because
the allowlist on line 626 omits `ai_rejected`. -/
theorem C1_counterexample :
    adminApproveContribution adminList uAdmin "c1" "t1" noFaults (wWith "ai_rejected")
      = (wWith "ai_rejected",
         errResp 400 "INVALID_STATE" "Can only approve pending or AI-reviewed contributions") := by
  decide

/-- C1 amended: a moderator approve succeeds — transitioning the record to
`approved` (the spec's `published`) and setting `publishedPath` (the spec's
`publishedLocation`) — from `pending`, `ai_approved` (`automated_pass`) and
`ai_needs_changes` (`automated_needs_changes`); from `ai_rejected`
(`automated_reject`) it fails with `INVALID_STATE` and changes nothing. -/
theorem C1_moderator_approve (adminUsers : List String) (user : User) (id now : String)
    (w : World) (c : Contribution) (content : SubmittedContent)
    (hadm : isAdmin adminUsers user = true)
    (hlook : List.lookup id w.contribs = some c)
    (hcont : List.lookup id w.pendingBucket = some content) :
    ((c.status = "pending" ∨ c.status = "ai_approved" ∨ c.status = "ai_needs_changes") →
      (adminApproveContribution adminUsers user id now noFaults w).2 = .ok 200 ∧
      List.lookup id (adminApproveContribution adminUsers user id now noFaults w).1.contribs
        = some (approveSet user now
            (guidelinePath content.framework content.category content.guideline.slug) c)) ∧
    (c.status = "ai_rejected" →
      adminApproveContribution adminUsers user id now noFaults w
        = (w, errResp 400 "INVALID_STATE"
            "Can only approve pending or AI-reviewed contributions")) := by
  constructor
  · intro hs
    have hst : approvableStatuses.contains c.status = true := by
      rcases hs with h | h | h <;> rw [h] <;> rfl
    unfold adminApproveContribution
    rw [hlook, approve_success_eq adminUsers user id now w c content hadm hst hcont]
    exact ⟨rfl, by simp [lookup_updateRecord_self, hlook]⟩
  · intro hs
    have hst : approvableStatuses.contains c.status = false := by rw [hs]; rfl
    have hnmem : c.status ∉ approvableStatuses := by simpa using hst
    unfold adminApproveContribution adminApproveContributionAfterRead
    rw [hlook]
    simp [hadm, hnmem]

/-- Witness for C1 amended at the scenario's triple: approve from
`ai_approved` publishes, approve from `ai_rejected` is refused. -/
theorem C1_moderator_approve_witness :
    isAdmin adminList uAdmin = true ∧
    ((adminApproveContribution adminList uAdmin "c1" "t1" noFaults (wWith "ai_approved")).2
        = .ok 200 ∧
      List.lookup "c1"
          (adminApproveContribution adminList uAdmin "c1" "t1" noFaults (wWith "ai_approved")).1.contribs
        = some (approveSet uAdmin "t1" "guidelines/nextjs/security/csrf.md"
            (mkContrib "c1" "ai_approved"))) := by
  have h := C1_moderator_approve adminList uAdmin "c1" "t1" (wWith "ai_approved")
    (mkContrib "c1" "ai_approved") ⟨"nextjs", "security", gOk⟩
    (by decide) (by decide) (by decide)
  exact ⟨by decide, h.1 (Or.inr (Or.inl rfl))⟩

/-- C4 counterexample: withdraw by the owner from `admin_needs_changes`
(the spec's `moderator_needs_changes`, a non-terminal state) does not
succeed — the allowlist on line 530 omits it, so the call fails with
`INVALID_STATE` and changes nothing. -/
theorem C4_counterexample :
    deleteContribution uOwner "c1" "t1" (wWith "admin_needs_changes")
      = (wWith "admin_needs_changes",
         errResp 400 "INVALID_STATE" "Cannot withdraw approved or rejected contributions") := by
  decide

/-- C4 amended: withdraw by the owner succeeds — setting status
`withdrawn` — exactly from `pending`, `ai_needs_changes`
(`automated_needs_changes`) and `ai_approved` (`automated_pass`); from
`admin_needs_changes` (`moderator_needs_changes`) and `ai_rejected`
(`automated_reject`) it fails with `INVALID_STATE` and changes nothing.  A
revise attempted on a withdrawn contribution fails with `INVALID_STATE`. -/
theorem C4_withdraw_statuses (u : User) (id now : String) (w : World) (c : Contribution)
    (hlook : List.lookup id w.contribs = some c)
    (hown : c.contributorGithubId = u.sub) :
    ((c.status = "pending" ∨ c.status = "ai_needs_changes" ∨ c.status = "ai_approved") →
      (deleteContribution u id now w).2 = .ok 200 ∧
      List.lookup id (deleteContribution u id now w).1.contribs
        = some { c with status := "withdrawn", updatedAt := now }) ∧
    ((c.status = "admin_needs_changes" ∨ c.status = "ai_rejected") →
      deleteContribution u id now w
        = (w, errResp 400 "INVALID_STATE" "Cannot withdraw approved or rejected contributions")) ∧
    (c.status = "withdrawn" → ∀ (framework category : String) (g : Guideline),
      updateContribution u id framework category g now w
        = (w, errResp 400 "INVALID_STATE"
            "Can only update pending or needs-changes contributions")) := by
  have hbeq : (c.contributorGithubId != u.sub) = false := by simp [hown]
  refine ⟨?_, ?_, ?_⟩
  · intro hs
    have hmem : c.status ∈ withdrawableStatuses := by
      rcases hs with h | h | h <;> rw [h] <;> decide
    unfold deleteContribution deleteContributionAfterRead
    rw [hlook]
    simp [hbeq, hmem, lookup_updateRecord_self, hlook]
  · intro hs
    have hnmem : c.status ∉ withdrawableStatuses := by
      rcases hs with h | h <;> rw [h] <;> decide
    unfold deleteContribution deleteContributionAfterRead
    rw [hlook]
    simp [hbeq, hnmem]
  · intro hs framework category g
    have hnmem : c.status ∉ updateEditableStatuses := by rw [hs]; decide
    unfold updateContribution updateContributionAfterRead
    rw [hlook]
    simp [hbeq, hnmem]

/-- Witness for C4 amended: withdraw from `pending` succeeds; a revise
after withdrawal is refused with `INVALID_STATE`. -/
theorem C4_withdraw_statuses_witness :
    ((deleteContribution uOwner "c1" "t1" (wWith "pending")).2 = .ok 200 ∧
      List.lookup "c1" (deleteContribution uOwner "c1" "t1" (wWith "pending")).1.contribs
        = some { mkContrib "c1" "pending" with status := "withdrawn", updatedAt := "t1" }) ∧
    updateContribution uOwner "c1" "nextjs" "security" gOk "t2" (wWith "withdrawn")
      = (wWith "withdrawn",
         errResp 400 "INVALID_STATE" "Can only update pending or needs-changes contributions") := by
  have h1 := C4_withdraw_statuses uOwner "c1" "t1" (wWith "pending")
    (mkContrib "c1" "pending") (by decide) (by decide)
  have h2 := C4_withdraw_statuses uOwner "c1" "t2" (wWith "withdrawn")
    (mkContrib "c1" "withdrawn") (by decide) (by decide)
  exact ⟨h1.1 (Or.inl rfl), h2.2.2 rfl "nextjs" "security" gOk⟩

/-- C2 counterexample: two interleaved moderate calls on the same pending
contribution — both `GetCommand` reads happen before either write — BOTH
return 200 and both writes commit (the later approve overwrites the earlier
reject), because no write carries a `ConditionExpression`; no
`ConcurrentModificationError` exists anywhere in the code. -/
theorem C2_counterexample :
    (adminRejectContributionAfterRead adminList uAdmin "c1" none "t1"
        (List.lookup "c1" (wWith "pending").contribs) (wWith "pending")).2 = .ok 200 ∧
    (adminApproveContributionAfterRead adminList uAdmin2 "c1" "t2" noFaults
        (List.lookup "c1" (wWith "pending").contribs)
        (adminRejectContributionAfterRead adminList uAdmin "c1" none "t1"
          (List.lookup "c1" (wWith "pending").contribs) (wWith "pending")).1).2 = .ok 200 ∧
    (List.lookup "c1"
        (adminApproveContributionAfterRead adminList uAdmin2 "c1" "t2" noFaults
          (List.lookup "c1" (wWith "pending").contribs)
          (adminRejectContributionAfterRead adminList uAdmin "c1" none "t1"
            (List.lookup "c1" (wWith "pending").contribs) (wWith "pending")).1).1.contribs).map
        Contribution.status
      = some "approved" := by
  refine ⟨by decide, by decide, by decide⟩

/-- C2 amended: no lifecycle transition re-checks the previously-read
status at write time — every `UpdateCommand` is unconditional, so of two
concurrent moderate calls that both read the record before either writes,
both commit and both callers receive 200 (the later write wins); neither
fails, and the code defines no `ConcurrentModificationError`. -/
theorem C2_unconditional_writes (adminUsers : List String) (u1 u2 : User)
    (id now1 now2 : String) (reason : Option String) (w : World)
    (c : Contribution) (content : SubmittedContent)
    (hadm1 : isAdmin adminUsers u1 = true)
    (hadm2 : isAdmin adminUsers u2 = true)
    (hlook : List.lookup id w.contribs = some c)
    (hst : c.status = "pending")
    (hcont : List.lookup id w.pendingBucket = some content) :
    (adminRejectContributionAfterRead adminUsers u1 id reason now1 (some c) w).2 = .ok 200 ∧
    (adminApproveContributionAfterRead adminUsers u2 id now2 noFaults (some c)
        (adminRejectContributionAfterRead adminUsers u1 id reason now1 (some c) w).1).2
      = .ok 200 ∧
    (List.lookup id
        (adminApproveContributionAfterRead adminUsers u2 id now2 noFaults (some c)
          (adminRejectContributionAfterRead adminUsers u1 id reason now1 (some c) w).1).1.contribs).map
        Contribution.status
      = some "approved" := by
  have hnf : c.status ∉ finalizedStatuses := by rw [hst]; decide
  have hap : approvableStatuses.contains c.status = true := by rw [hst]; rfl
  have hreject : adminRejectContributionAfterRead adminUsers u1 id reason now1 (some c) w
      = ({ w with contribs := updateRecord w.contribs id (fun cc =>
            { cc with status := "rejected", updatedAt := now1,
                      rejectedBy := some u1.username, rejectedAt := some now1,
                      rejectionReason := some (reason.getD "Does not meet quality standards") }) },
         .ok 200) := by
    unfold adminRejectContributionAfterRead
    simp [hadm1, hnf]
  have hcont1 : List.lookup id
      (adminRejectContributionAfterRead adminUsers u1 id reason now1 (some c) w).1.pendingBucket
      = some content := by
    rw [hreject]
    exact hcont
  have happrove := approve_success_eq adminUsers u2 id now2
    (adminRejectContributionAfterRead adminUsers u1 id reason now1 (some c) w).1
    c content hadm2 hap hcont1
  refine ⟨by rw [hreject], by rw [happrove], ?_⟩
  rw [happrove]
  simp only []
  rw [hreject]
  simp only []
  rw [lookup_updateRecord_self, lookup_updateRecord_self, hlook]
  simp [approveSet]

/-- Witness for C2 amended at the fixture interleaving. -/
theorem C2_unconditional_writes_witness :
    (adminRejectContributionAfterRead adminList uAdmin "c1" none "t1"
        (some (mkContrib "c1" "pending")) (wWith "pending")).2 = .ok 200 ∧
    (adminApproveContributionAfterRead adminList uAdmin2 "c1" "t2" noFaults
        (some (mkContrib "c1" "pending"))
        (adminRejectContributionAfterRead adminList uAdmin "c1" none "t1"
          (some (mkContrib "c1" "pending")) (wWith "pending")).1).2 = .ok 200 := by
  have h := C2_unconditional_writes adminList uAdmin uAdmin2 "c1" "t1" "t2" none
    (wWith "pending") (mkContrib "c1" "pending") ⟨"nextjs", "security", gOk⟩
    (by decide) (by decide) (by decide) (by decide) (by decide)
  exact ⟨h.1, h.2.1⟩

/-- C3 counterexample: two pending contributions carry the identical triple
(`nextjs`, `security`, `csrf`); approving the first and then the second —
no interleaving at all — yields TWO successes, not one success and one
failure, because `adminApproveContribution` never re-checks the duplicate
query it ran at submission time. -/
theorem C3_counterexample :
    (adminApproveContribution adminList uAdmin "c1" "t1" noFaults wTwoSameTriple).2 = .ok 200 ∧
    (adminApproveContribution adminList uAdmin2 "c2" "t2" noFaults
        (adminApproveContribution adminList uAdmin "c1" "t1" noFaults wTwoSameTriple).1).2
      = .ok 200 ∧
    (List.lookup "c1"
        (adminApproveContribution adminList uAdmin2 "c2" "t2" noFaults
          (adminApproveContribution adminList uAdmin "c1" "t1" noFaults
            wTwoSameTriple).1).1.contribs).map Contribution.status = some "approved" ∧
    (List.lookup "c2"
        (adminApproveContribution adminList uAdmin2 "c2" "t2" noFaults
          (adminApproveContribution adminList uAdmin "c1" "t1" noFaults
            wTwoSameTriple).1).1.contribs).map Contribution.status = some "approved" := by
  refine ⟨by decide, by decide, by decide, by decide⟩

/-- C3 amended: `adminApproveContribution` performs no duplicate re-check
before the publish writes; independently approving two contributions with
the same (topic, category, slug) both succeeds — both records end
`approved` — and the second publish silently overwrites the first's
guideline-index entry (its `contributionId` becomes the second id). -/
theorem C3_no_publish_time_dup_check (adminUsers : List String) (u1 u2 : User)
    (id1 id2 now1 now2 : String) (w : World) (c1 c2 : Contribution)
    (ct1 ct2 : SubmittedContent)
    (hid : id1 ≠ id2)
    (hadm1 : isAdmin adminUsers u1 = true)
    (hadm2 : isAdmin adminUsers u2 = true)
    (hlook1 : List.lookup id1 w.contribs = some c1)
    (hlook2 : List.lookup id2 w.contribs = some c2)
    (hst1 : approvableStatuses.contains c1.status = true)
    (hst2 : approvableStatuses.contains c2.status = true)
    (hcont1 : List.lookup id1 w.pendingBucket = some ct1)
    (hcont2 : List.lookup id2 w.pendingBucket = some ct2)
    (hfw : ct2.framework = ct1.framework)
    (hcat : ct2.category = ct1.category)
    (hslug : ct2.guideline.slug = ct1.guideline.slug) :
    (adminApproveContribution adminUsers u1 id1 now1 noFaults w).2 = .ok 200 ∧
    (adminApproveContribution adminUsers u2 id2 now2 noFaults
        (adminApproveContribution adminUsers u1 id1 now1 noFaults w).1).2 = .ok 200 ∧
    (List.lookup id1
        (adminApproveContribution adminUsers u2 id2 now2 noFaults
          (adminApproveContribution adminUsers u1 id1 now1 noFaults w).1).1.contribs).map
        Contribution.status = some "approved" ∧
    (List.lookup id2
        (adminApproveContribution adminUsers u2 id2 now2 noFaults
          (adminApproveContribution adminUsers u1 id1 now1 noFaults w).1).1.contribs).map
        Contribution.status = some "approved" ∧
    (List.lookup (guidelineKey ct1.framework ct1.category ct1.guideline.slug)
        (adminApproveContribution adminUsers u2 id2 now2 noFaults
          (adminApproveContribution adminUsers u1 id1 now1 noFaults w).1).1.guidelines).map
        GuidelineEntry.contributionId = some id2 := by
  have h1 : adminApproveContribution adminUsers u1 id1 now1 noFaults w
      = adminApproveContributionAfterRead adminUsers u1 id1 now1 noFaults (some c1) w := by
    unfold adminApproveContribution
    rw [hlook1]
  have e1 := approve_success_eq adminUsers u1 id1 now1 w c1 ct1 hadm1 hst1 hcont1
  set w1 := (adminApproveContribution adminUsers u1 id1 now1 noFaults w).1 with hw1
  have hw1eq : w1 = { w with
      contentBucket := putKV w.contentBucket
        (guidelinePath ct1.framework ct1.category ct1.guideline.slug)
        ⟨ct1.framework, ct1.category, ct1.guideline, c1.contributorUsername⟩,
      websiteBucket := putKV w.websiteBucket
        (htmlPath ct1.framework ct1.category ct1.guideline.slug)
        ⟨ct1.framework, ct1.category, ct1.guideline, c1.contributorUsername⟩,
      contribs := updateRecord w.contribs id1
        (approveSet u1 now1 (guidelinePath ct1.framework ct1.category ct1.guideline.slug)),
      guidelines := putKV w.guidelines
        (guidelineKey ct1.framework ct1.category ct1.guideline.slug)
        { contributionId := id1, framework := ct1.framework,
          category := ct1.category, slug := ct1.guideline.slug,
          title := ct1.guideline.title, publishedAt := now1,
          publishedPath := guidelinePath ct1.framework ct1.category ct1.guideline.slug } } := by
    rw [hw1, h1, e1]
  have hlook2w1 : List.lookup id2 w1.contribs = some c2 := by
    rw [hw1eq]
    simpa [lookup_updateRecord_ne _ _ _ _ (Ne.symm hid)] using hlook2
  have hcont2w1 : List.lookup id2 w1.pendingBucket = some ct2 := by
    rw [hw1eq]
    exact hcont2
  have h2 : adminApproveContribution adminUsers u2 id2 now2 noFaults w1
      = adminApproveContributionAfterRead adminUsers u2 id2 now2 noFaults (some c2) w1 := by
    unfold adminApproveContribution
    rw [hlook2w1]
  have e2 := approve_success_eq adminUsers u2 id2 now2 w1 c2 ct2 hadm2 hst2 hcont2w1
  refine ⟨by rw [h1, e1], by rw [h2, e2], ?_, ?_, ?_⟩
  · rw [h2, e2]
    simp only []
    rw [lookup_updateRecord_ne _ _ _ _ hid, hw1eq]
    simp only []
    rw [lookup_updateRecord_self, hlook1]
    simp [approveSet]
  · rw [h2, e2]
    simp only []
    rw [lookup_updateRecord_self, hlook2w1]
    simp [approveSet]
  · rw [h2, e2]
    simp only []
    rw [hfw, hcat, hslug, lookup_putKV_self]
    rfl

/-- Witness for C3 amended at the fixture world of two same-triple
pending contributions. -/
theorem C3_no_publish_time_dup_check_witness :
    (adminApproveContribution adminList uAdmin "c1" "t1" noFaults wTwoSameTriple).2 = .ok 200 ∧
    (List.lookup (guidelineKey "nextjs" "security" "csrf")
        (adminApproveContribution adminList uAdmin2 "c2" "t2" noFaults
          (adminApproveContribution adminList uAdmin "c1" "t1" noFaults
            wTwoSameTriple).1).1.guidelines).map GuidelineEntry.contributionId = some "c2" := by
  have h := C3_no_publish_time_dup_check adminList uAdmin uAdmin2 "c1" "c2" "t1" "t2"
    wTwoSameTriple (mkContrib "c1" "pending") (mkContrib "c2" "pending")
    ⟨"nextjs", "security", gOk⟩ ⟨"nextjs", "security", gOk⟩
    (by decide) (by decide) (by decide) (by decide) (by decide)
    (by decide) (by decide) (by decide) (by decide) (by decide) (by decide) (by decide)
  exact ⟨h.1, h.2.2.2.2⟩

/-- C6: if either Publisher write throws during a moderate-approve, the
status transition is not committed — the metadata record (and the whole
DynamoDB table, index entries included) keeps exactly its prior values, the
caller sees the surfaced error (the handler's 500), and the same approve
retried without the fault succeeds, publishing the contribution. -/
theorem C6_publish_failure_not_committed (adminUsers : List String) (user : User)
    (id now now2 : String) (faults : S3Faults) (w : World)
    (c : Contribution) (content : SubmittedContent)
    (hadm : isAdmin adminUsers user = true)
    (hlook : List.lookup id w.contribs = some c)
    (hst : approvableStatuses.contains c.status = true)
    (hcont : List.lookup id w.pendingBucket = some content)
    (hfail : faults.markdownPutFails = true ∨ faults.htmlPutFails = true) :
    (adminApproveContribution adminUsers user id now faults w).2
      = errResp 500 "INTERNAL_ERROR" "An internal error occurred" ∧
    (adminApproveContribution adminUsers user id now faults w).1.contribs = w.contribs ∧
    (adminApproveContribution adminUsers user id now faults w).1.guidelines = w.guidelines ∧
    (adminApproveContribution adminUsers user id now faults w).1.pendingBucket
      = w.pendingBucket ∧
    (adminApproveContribution adminUsers user id now2 noFaults
        (adminApproveContribution adminUsers user id now faults w).1).2 = .ok 200 ∧
    List.lookup id
        (adminApproveContribution adminUsers user id now2 noFaults
          (adminApproveContribution adminUsers user id now faults w).1).1.contribs
      = some (approveSet user now2
          (guidelinePath content.framework content.category content.guideline.slug) c) := by
  have hmem : c.status ∈ approvableStatuses := by simpa using hst
  have retryOk : ∀ w2 : World,
      List.lookup id w2.contribs = some c →
      List.lookup id w2.pendingBucket = some content →
      (adminApproveContribution adminUsers user id now2 noFaults w2).2 = .ok 200 ∧
      List.lookup id (adminApproveContribution adminUsers user id now2 noFaults w2).1.contribs
        = some (approveSet user now2
            (guidelinePath content.framework content.category content.guideline.slug) c) := by
    intro w2 hl2 hc2
    have hfull : adminApproveContribution adminUsers user id now2 noFaults w2
        = adminApproveContributionAfterRead adminUsers user id now2 noFaults (some c) w2 := by
      unfold adminApproveContribution
      rw [hl2]
    rw [hfull, approve_success_eq adminUsers user id now2 w2 c content hadm hst hc2]
    refine ⟨rfl, ?_⟩
    simp only []
    rw [lookup_updateRecord_self, hl2]
    rfl
  obtain ⟨mf, hf⟩ := faults
  cases mf with
  | true =>
      have hres : adminApproveContribution adminUsers user id now ⟨true, hf⟩ w
          = (w, errResp 500 "INTERNAL_ERROR" "An internal error occurred") := by
        unfold adminApproveContribution adminApproveContributionAfterRead
        rw [hlook]
        simp [hadm, hmem, hcont]
      rw [hres]
      exact ⟨rfl, rfl, rfl, rfl, retryOk w hlook hcont⟩
  | false =>
      have hft : hf = true := by
        rcases hfail with h | h
        · exact absurd h (by simp)
        · exact h
      subst hft
      have hres : adminApproveContribution adminUsers user id now ⟨false, true⟩ w
          = ({ w with contentBucket := putKV w.contentBucket (guidelinePath content.framework content.category content.guideline.slug) ⟨content.framework, content.category, content.guideline, c.contributorUsername⟩ },
             errResp 500 "INTERNAL_ERROR" "An internal error occurred") := by
        unfold adminApproveContribution adminApproveContributionAfterRead
        rw [hlook]
        simp [hadm, hmem, hcont]
      rw [hres]
      exact ⟨rfl, rfl, rfl, rfl, retryOk _ hlook hcont⟩

/-- Witness for C6: the markdown `PutObject` fails on an `ai_approved`
contribution; the record is untouched and the retry publishes. -/
theorem C6_publish_failure_not_committed_witness :
    (adminApproveContribution adminList uAdmin "c1" "t1" ⟨true, false⟩ (wWith "ai_approved")).2
      = errResp 500 "INTERNAL_ERROR" "An internal error occurred" ∧
    (adminApproveContribution adminList uAdmin "c1" "t1" ⟨true, false⟩
        (wWith "ai_approved")).1.contribs = (wWith "ai_approved").contribs ∧
    (adminApproveContribution adminList uAdmin "c1" "t2" noFaults
        (adminApproveContribution adminList uAdmin "c1" "t1" ⟨true, false⟩
          (wWith "ai_approved")).1).2 = .ok 200 := by
  have h := C6_publish_failure_not_committed adminList uAdmin "c1" "t1" "t2" ⟨true, false⟩
    (wWith "ai_approved") (mkContrib "c1" "ai_approved") ⟨"nextjs", "security", gOk⟩
    (by decide) (by decide) (by decide) (by decide) (Or.inl rfl)
  exact ⟨h.1, h.2.1, h.2.2.2.2.1⟩

/-- C8: every successful revise resets the record's status to `pending`,
sets both the automated review field (`review`) and the moderator
decision/feedback field (`adminReview`) to `null` regardless of their
prior contents, and replaces the stored payload. -/
theorem C8_revise_resets_review_state (u : User) (id framework category : String)
    (g : Guideline) (now : String) (w : World)
    (hok : (updateContribution u id framework category g now w).2 = .ok 200) :
    ∃ c : Contribution, List.lookup id w.contribs = some c ∧
      List.lookup id (updateContribution u id framework category g now w).1.contribs
        = some { c with status := "pending", title := g.title, slug := g.slug,
                        updatedAt := now, review := none, adminReview := none } ∧
      List.lookup id (updateContribution u id framework category g now w).1.pendingBucket
        = some ⟨framework, category, g⟩ := by
  unfold updateContribution updateContributionAfterRead at hok ⊢
  cases hlook : List.lookup id w.contribs with
  | none =>
      rw [hlook] at hok
      simp [errResp] at hok
  | some c =>
      rw [hlook] at hok
      by_cases h1 : c.contributorGithubId = u.sub
      case neg => simp [h1, errResp] at hok
      by_cases h2 : c.status ∈ updateEditableStatuses
      case neg => simp [h1, h2, errResp] at hok
      by_cases h3 : 0 < (validateGuideline g).length
      case pos => simp [h1, h2, h3] at hok
      refine ⟨c, rfl, ?_, ?_⟩
      · simp [h1, h2, h3, lookup_updateRecord_self, hlook]
      · simp [h1, h2, h3, lookup_putKV_self]

/-- Witness for C8: a revise from `admin_needs_changes` (where moderator
feedback is present) succeeds and leaves both review fields null. -/
theorem C8_revise_resets_review_state_witness :
    (updateContribution uOwner "c1" "nextjs" "security" gOk "t1"
        (wWith "admin_needs_changes")).2 = .ok 200 ∧
    (∃ c : Contribution,
      List.lookup "c1" (wWith "admin_needs_changes").contribs = some c ∧
      List.lookup "c1"
          (updateContribution uOwner "c1" "nextjs" "security" gOk "t1"
            (wWith "admin_needs_changes")).1.contribs
        = some { c with status := "pending", title := gOk.title, slug := gOk.slug,
                        updatedAt := "t1", review := none, adminReview := none } ∧
      List.lookup "c1"
          (updateContribution uOwner "c1" "nextjs" "security" gOk "t1"
            (wWith "admin_needs_changes")).1.pendingBucket
        = some ⟨"nextjs", "security", gOk⟩) :=
  ⟨by decide,
   C8_revise_resets_review_state uOwner "c1" "nextjs" "security" gOk "t1"
     (wWith "admin_needs_changes") (by decide)⟩

/-- Membership in a one-element conditional list. -/
theorem mem_ite_singleton {c : Prop} [Decidable c] (a x : FieldError) :
    (a ∈ (if c then [x] else ([] : List FieldError))) ↔ (c ∧ a = x) := by
  split <;> simp [*]

/-- C9: submit (and revise) with a structurally invalid payload fails with a
`VALIDATION_ERROR` carrying the exhaustive list of every field-level error —
title 5-100 chars, description 20-300 chars, 1-10 tags, difficulty enum,
slug and version format, minimum content length — and writes nothing: the
whole world is returned unchanged.  The seven iffs characterise exactly
which field errors the returned list holds. -/
theorem C9_validation_exhaustive_no_record (u : User) (framework category : String)
    (g : Guideline) (id now : String) (w : World)
    (hfw : framework ≠ "") (hcat : category ≠ "")
    (hbad : validateGuideline g ≠ []) :
    createContribution u framework category g id now w
      = (w, .err 400 "VALIDATION_ERROR" "Invalid guideline format" (validateGuideline g)) ∧
    (∀ c : Contribution, List.lookup id w.contribs = some c →
      c.contributorGithubId = u.sub → c.status ∈ updateEditableStatuses →
      updateContribution u id framework category g now w
        = (w, .err 400 "VALIDATION_ERROR" "Invalid guideline format" (validateGuideline g))) ∧
    ((⟨"title", "Must be 5-100 characters"⟩ : FieldError) ∈ validateGuideline g ↔
      (g.title = "" ∨ g.title.length < 5 ∨ g.title.length > 100)) ∧
    ((⟨"slug", "Must be lowercase with hyphens only"⟩ : FieldError) ∈ validateGuideline g ↔
      (g.slug = "" ∨ slugMatches g.slug = false)) ∧
    ((⟨"version", "Must be semver format (1.0.0)"⟩ : FieldError) ∈ validateGuideline g ↔
      (g.version = "" ∨ semverMatches g.version = false)) ∧
    ((⟨"description", "Must be 20-300 characters"⟩ : FieldError) ∈ validateGuideline g ↔
      (g.description = "" ∨ g.description.length < 20 ∨ g.description.length > 300)) ∧
    ((⟨"tags", "Must have 1-10 tags"⟩ : FieldError) ∈ validateGuideline g ↔
      (g.tags.length < 1 ∨ g.tags.length > 10)) ∧
    ((⟨"difficulty", "Must be beginner, intermediate, or advanced"⟩ : FieldError)
        ∈ validateGuideline g ↔
      g.difficulty ∉ (["beginner", "intermediate", "advanced"] : List String)) ∧
    ((⟨"content", "Content must be at least 100 characters"⟩ : FieldError)
        ∈ validateGuideline g ↔
      (g.content = "" ∨ g.content.length < 100)) := by
  have hlen : 0 < (validateGuideline g).length := List.length_pos.mpr hbad
  refine ⟨?_, ?_, ?_, ?_, ?_, ?_, ?_, ?_, ?_⟩
  · unfold createContribution
    simp [hfw, hcat, hlen]
  · intro c hlook hown hst
    unfold updateContribution updateContributionAfterRead
    rw [hlook]
    simp [hown, hst, hlen]
  all_goals simp [validateGuideline, List.mem_append, mem_ite_singleton] <;> tauto

/-- Witness for C9 at the scenario input: a three-character title yields a
`VALIDATION_ERROR` whose list names `title`, no record is created and no
record is modified. -/
theorem C9_validation_exhaustive_no_record_witness :
    validateGuideline gShortTitle ≠ [] ∧
    createContribution uOwner "nextjs" "security" gShortTitle "cX" "t1" (wWith "pending")
      = (wWith "pending",
         .err 400 "VALIDATION_ERROR" "Invalid guideline format" (validateGuideline gShortTitle)) ∧
    ((⟨"title", "Must be 5-100 characters"⟩ : FieldError) ∈ validateGuideline gShortTitle) ∧
    updateContribution uOwner "c1" "nextjs" "security" gShortTitle "t1" (wWith "pending")
      = (wWith "pending",
         .err 400 "VALIDATION_ERROR" "Invalid guideline format" (validateGuideline gShortTitle)) := by
  have h := C9_validation_exhaustive_no_record uOwner "nextjs" "security" gShortTitle "cX" "t1"
    (wWith "pending") (by decide) (by decide) (by decide)
  have h2 := C9_validation_exhaustive_no_record uOwner "nextjs" "security" gShortTitle "c1" "t1"
    (wWith "pending") (by decide) (by decide) (by decide)
  refine ⟨by decide, h.1, ?_, ?_⟩
  · exact (h.2.2.1).mpr (Or.inr (Or.inl (by decide)))
  · exact h2.2.1 (mkContrib "c1" "pending") (by decide) (by decide) (by decide)

/-- C5 counterexample: on a contribution already in the terminal
`approved` (published) state, a moderator-approve attempted by an actor
without the moderator capability is answered with 403 `FORBIDDEN`, not with
the `InvalidState` error the claim promises for every actor — the
authorization gate runs before the state guard. -/
theorem C5_counterexample :
    adminApproveContribution adminList uOther "c1" "t1" noFaults (wWith "approved")
      = (wWith "approved", errResp 403 "FORBIDDEN" "Admin access required") := by
  decide

/-- C5 amended: for every contribution in a terminal status (`approved` =
published, `rejected`, `withdrawn`), each of the five transitions — revise,
withdraw, moderator approve/reject/request-changes — leaves the world
unchanged for every actor; the actor holding the required capability (owner
for revise/withdraw, moderator for the admin operations) receives the
`INVALID_STATE` error, while an actor without it receives an authorization
error instead. -/
theorem C5_terminal_states_frozen (w : World) (id now : String) (c : Contribution)
    (hlook : List.lookup id w.contribs = some c)
    (hterm : c.status = "approved" ∨ c.status = "rejected" ∨ c.status = "withdrawn") :
    (∀ (u : User) (framework category : String) (g : Guideline),
      (updateContribution u id framework category g now w).1 = w ∧
      (c.contributorGithubId = u.sub →
        (updateContribution u id framework category g now w).2
          = errResp 400 "INVALID_STATE"
              "Can only update pending or needs-changes contributions")) ∧
    (∀ u : User,
      (deleteContribution u id now w).1 = w ∧
      (c.contributorGithubId = u.sub →
        (deleteContribution u id now w).2
          = errResp 400 "INVALID_STATE"
              "Cannot withdraw approved or rejected contributions")) ∧
    (∀ (adminUsers : List String) (u : User) (faults : S3Faults),
      (adminApproveContribution adminUsers u id now faults w).1 = w ∧
      (isAdmin adminUsers u = true →
        (adminApproveContribution adminUsers u id now faults w).2
          = errResp 400 "INVALID_STATE"
              "Can only approve pending or AI-reviewed contributions")) ∧
    (∀ (adminUsers : List String) (u : User) (reason : Option String),
      (adminRejectContribution adminUsers u id reason now w).1 = w ∧
      (isAdmin adminUsers u = true →
        (adminRejectContribution adminUsers u id reason now w).2
          = errResp 400 "INVALID_STATE"
              "Cannot reject already finalized contributions")) ∧
    (∀ (adminUsers : List String) (u : User) (feedback : Option String),
      (adminRequestChanges adminUsers u id feedback now w).1 = w ∧
      (isAdmin adminUsers u = true →
        (adminRequestChanges adminUsers u id feedback now w).2
          = errResp 400 "INVALID_STATE"
              "Cannot request changes for finalized contributions")) := by
  have hne : c.status ∉ updateEditableStatuses := by
    rcases hterm with h | h | h <;> rw [h] <;> decide
  have hnw : c.status ∉ withdrawableStatuses := by
    rcases hterm with h | h | h <;> rw [h] <;> decide
  have hna : c.status ∉ approvableStatuses := by
    rcases hterm with h | h | h <;> rw [h] <;> decide
  have hfin : c.status ∈ finalizedStatuses := by
    rcases hterm with h | h | h <;> rw [h] <;> decide
  refine ⟨?_, ?_, ?_, ?_, ?_⟩
  · intro u framework category g
    unfold updateContribution updateContributionAfterRead
    rw [hlook]
    by_cases hu : c.contributorGithubId = u.sub
    · exact ⟨by simp [hu, hne], fun _ => by simp [hu, hne]⟩
    · exact ⟨by simp [hu], fun h => absurd h hu⟩
  · intro u
    unfold deleteContribution deleteContributionAfterRead
    rw [hlook]
    by_cases hu : c.contributorGithubId = u.sub
    · exact ⟨by simp [hu, hnw], fun _ => by simp [hu, hnw]⟩
    · exact ⟨by simp [hu], fun h => absurd h hu⟩
  · intro adminUsers u faults
    unfold adminApproveContribution adminApproveContributionAfterRead
    rw [hlook]
    by_cases ha : isAdmin adminUsers u = true
    · exact ⟨by simp [ha, hna], fun _ => by simp [ha, hna]⟩
    · have hf : isAdmin adminUsers u = false := by
        rwa [Bool.not_eq_true] at ha
      exact ⟨by simp [hf], fun h => absurd h ha⟩
  · intro adminUsers u reason
    unfold adminRejectContribution adminRejectContributionAfterRead
    rw [hlook]
    by_cases ha : isAdmin adminUsers u = true
    · exact ⟨by simp [ha, hfin], fun _ => by simp [ha, hfin]⟩
    · have hf : isAdmin adminUsers u = false := by
        rwa [Bool.not_eq_true] at ha
      exact ⟨by simp [hf], fun h => absurd h ha⟩
  · intro adminUsers u feedback
    unfold adminRequestChanges adminRequestChangesAfterRead
    rw [hlook]
    by_cases ha : isAdmin adminUsers u = true
    · exact ⟨by simp [ha, hfin], fun _ => by simp [ha, hfin]⟩
    · have hf : isAdmin adminUsers u = false := by
        rwa [Bool.not_eq_true] at ha
      exact ⟨by simp [hf], fun h => absurd h ha⟩

/-- Witness for C5 amended on a published (`approved`) contribution: the
owner's revise and withdraw and an admin's reject all answer
`INVALID_STATE` and leave the world unchanged. -/
theorem C5_terminal_states_frozen_witness :
    ((updateContribution uOwner "c1" "nextjs" "security" gOk "t1" (wWith "approved")).1
        = wWith "approved" ∧
      (updateContribution uOwner "c1" "nextjs" "security" gOk "t1" (wWith "approved")).2
        = errResp 400 "INVALID_STATE"
            "Can only update pending or needs-changes contributions") ∧
    ((deleteContribution uOwner "c1" "t1" (wWith "approved")).1 = wWith "approved" ∧
      (deleteContribution uOwner "c1" "t1" (wWith "approved")).2
        = errResp 400 "INVALID_STATE"
            "Cannot withdraw approved or rejected contributions") ∧
    ((adminRejectContribution adminList uAdmin "c1" none "t1" (wWith "approved")).1
        = wWith "approved" ∧
      (adminRejectContribution adminList uAdmin "c1" none "t1" (wWith "approved")).2
        = errResp 400 "INVALID_STATE" "Cannot reject already finalized contributions") := by
  have h := C5_terminal_states_frozen (wWith "approved") "c1" "t1"
    (mkContrib "c1" "approved") (by decide) (Or.inl rfl)
  refine ⟨?_, ?_, ?_⟩
  · have hu := h.1 uOwner "nextjs" "security" gOk
    exact ⟨hu.1, hu.2 (by decide)⟩
  · have hu := h.2.1 uOwner
    exact ⟨hu.1, hu.2 (by decide)⟩
  · have hu := h.2.2.2.1 adminList uAdmin none
    exact ⟨hu.1, hu.2 (by decide)⟩

end Erold
